import Mathlib

/-!
Verification of the document analysis and persistence pipeline of the
wwii-server3 repository.  Definitions are shallow embeddings of the
TypeScript sources:

* `ValidationService.ts` → `validateEntity`, `validateEntities`,
  `validateDocumentForSave`
* `EntityRepository.ts` / `BaseRepository.ts` → `defaultTxOps`,
  `createFromEntity`
* `DocumentProcessingService` (service file) → `analyzeDocument`,
  `convertToImage`, `saveDocumentWith`, `cancelProcessing`, the background
  task segments and `backgroundRun`
* `DocumentRepository.createWithEntities` → `defaultTxOps.createWithEntities`

Machine strings are Lean `String`s, JS `Map` is an association list,
database ids are `Nat`s handed out by a counter.
-/

deriving instance DecidableEq for Except

namespace WWII

/-! ## JS primitives used by the source (platform builtins, not in the repo)

The JS string methods the source uses (`trim`, `toLowerCase`, `split`,
`join`, numeric parsing) are modelled directly over the string's
character list, so every definition below is kernel-computable. -/

/-- JS `String.prototype.toLowerCase`. -/
def jsToLower (s : String) : String := ⟨s.data.map Char.toLower⟩

/-- JS `String.prototype.trim`: strip leading and trailing whitespace. -/
def jsTrim (s : String) : String :=
  ⟨((s.data.dropWhile Char.isWhitespace).reverse.dropWhile Char.isWhitespace).reverse⟩

/-- Split a character list at every occurrence of the (non-empty)
separator; the first argument is recursion fuel. -/
def splitGo (sep : List Char) : Nat → List Char → List Char → List (List Char)
  | 0, acc, _ => [acc.reverse]
  | _ + 1, acc, [] => [acc.reverse]
  | fuel + 1, acc, c :: rest =>
    if sep.isPrefixOf (c :: rest) then
      acc.reverse :: splitGo sep fuel [] ((c :: rest).drop sep.length)
    else
      splitGo sep fuel (c :: acc) rest

/-- JS `String.prototype.split` on a non-empty separator string. -/
def jsSplitOn (sep : String) (s : String) : List String :=
  if sep.isEmpty then [s]
  else (splitGo sep.data (s.data.length + 1) [] s.data).map String.mk

/-- Parse a non-empty all-digit string as a `Nat`. -/
def jsToNat (s : String) : Option Nat :=
  if ¬s.data.isEmpty ∧ s.data.all Char.isDigit then
    some (s.data.foldl (fun n c => n * 10 + (c.toNat - 48)) 0)
  else none

/-- JS `Array.prototype.join`. -/
def jsJoin (sep : String) : List String → String
  | [] => ""
  | [s] => s
  | s :: rest => s ++ sep ++ jsJoin sep rest

/-- Year and month/day of a parsed JS date (time-of-day components are not
needed by any code path modelled here). -/
structure PDate where
  year : Nat
  month : Nat
  day : Nat
deriving DecidableEq, Repr

/-- Modelled from the spec: JS `new Date(string)` parsing (a platform
builtin, not part of the repository sources), restricted to the ISO
`YYYY-MM-DD` form that the validation message itself names
("Use YYYY-MM-DD or valid date string").  Strings not of that shape are
treated as unparseable (`isNaN(date.getTime())` in the source). -/
def jsParseDate (s : String) : Option PDate :=
  match jsSplitOn "-" s with
  | [y, m, d] =>
    match jsToNat y, jsToNat m, jsToNat d with
    | some yn, some mn, some dn =>
      if y.length = 4 ∧ 1 ≤ mn ∧ mn ≤ 12 ∧ 1 ≤ dn ∧ dn ≤ 31 then
        some ⟨yn, mn, dn⟩
      else none
    | _, _, _ => none
  | _ => none

/-- Models `new Date().getFullYear()` at a fixed reference instant (the
source reads the wall clock; no claim depends on the actual year). -/
def jsCurrentYear : Nat := 2026

/-- Modelled from the spec: JS `new URL(url)` accepting it (a platform
builtin, not part of the repository sources), restricted to the
`scheme://rest` shape; used only by the optional image-URL format check. -/
def isValidUrl (url : String) : Bool :=
  match jsSplitOn "://" url with
  | scheme :: rest :: _ => !scheme.isEmpty && scheme.all Char.isAlpha && !rest.isEmpty
  | _ => false

/-- JS truthiness of an optional string (`undefined`, `null` and `""` are
falsy). -/
def strTruthy : Option String → Bool
  | none => false
  | some s => !s.isEmpty

/-! ## Data model (from `prisma/schema.prisma` and the api types) -/

/-- `enum DocumentType` of `schema.prisma`, as the list of its member
names, mirroring the runtime membership check
`Object.values(DocumentType).includes(...)`. -/
def DocumentTypeValues : List String :=
  ["letter", "report", "photo", "newspaper", "list", "diary_entry", "book",
   "map", "biography"]

/-- `enum EntityType` of `schema.prisma`, as the list of its member names. -/
def EntityTypeValues : List String :=
  ["person", "location", "organization", "event", "date", "unit"]

/-- The `Entity` interface used for creation/processing: name, type and an
optional date string. -/
structure EntityIn where
  name : String
  type : String
  date : Option String := none
deriving DecidableEq, Repr

/-- `CreateDocumentRequest` from the api types. -/
structure CreateDocumentRequest where
  title : String
  fileName : String
  content : String
  imageUrl : Option String := none
  documentType : String
  entities : List EntityIn
deriving DecidableEq, Repr

/-- `ValidationResult` from the api types. -/
structure ValidationResult where
  isValid : Bool
  errors : List String
deriving DecidableEq, Repr

/-! ## ValidationService -/

/-- `ValidationService.validateEntity`.  Error strings are pushed in
source order: name checks, type checks, date-specific checks, then the
person/location minimum-length checks. -/
def validateEntity (e : EntityIn) : ValidationResult :=
  let nameErrs :=
    if (jsTrim e.name).isEmpty then ["Entity name is required and cannot be empty"]
    else if e.name.length > 255 then ["Entity name cannot exceed 255 characters"]
    else []
  let typeErrs :=
    if e.type.isEmpty then ["Entity type is required"]
    else if e.type ∉ EntityTypeValues then
      ["Invalid entity type. Must be one of: " ++ jsJoin ", " EntityTypeValues]
    else []
  let dateErrs :=
    if e.type = "date" then
      if e.name.isEmpty then ["Date entity must have a name (date value)"]
      else
        match jsParseDate e.name with
        | none => ["Invalid date format. Use YYYY-MM-DD or valid date string"]
        | some d =>
          if d.year < 1800 ∨ d.year > jsCurrentYear + 10 then
            ["Date year must be between 1800 and " ++ toString (jsCurrentYear + 10)]
          else []
    else []
  let personErrs :=
    if e.type = "person" ∧ ¬e.name.isEmpty ∧ e.name.length < 2 then
      ["Person name must be at least 2 characters long"]
    else []
  let locationErrs :=
    if e.type = "location" ∧ ¬e.name.isEmpty ∧ e.name.length < 2 then
      ["Location name must be at least 2 characters long"]
    else []
  let errors := nameErrs ++ typeErrs ++ dateErrs ++ personErrs ++ locationErrs
  ⟨errors.isEmpty, errors⟩

/-- The `entities.forEach((entity, index) => ...)` loop of
`validateEntities`: each entity's errors prefixed `Entity <index+1>: `,
in order. -/
def perEntityErrors (i : Nat) : List EntityIn → List String
  | [] => []
  | e :: rest =>
    ((validateEntity e).errors.map (fun err =>
      "Entity " ++ toString (i + 1) ++ ": " ++ err)) ++ perEntityErrors (i + 1) rest

/-- `ValidationService.validateEntities`: an empty list returns early with
a single error; otherwise the 50-cap error is followed by each entity's
errors prefixed `Entity <i+1>: `. -/
def validateEntities (es : List EntityIn) : ValidationResult :=
  if es.length = 0 then ⟨false, ["At least one entity is required"]⟩
  else
    let capErrs :=
      if es.length > 50 then ["Cannot have more than 50 entities per document"] else []
    let errors := capErrs ++ perEntityErrors 0 es
    ⟨errors.isEmpty, errors⟩

/-- `ValidationService.validateDocumentForSave`.  Errors are accumulated
in source push order: title, fileName, content, documentType, image URL
format, entity errors, then the photo⇒imageUrl business rule. -/
def validateDocumentForSave (d : CreateDocumentRequest) : ValidationResult :=
  let titleErrs :=
    if (jsTrim d.title).isEmpty then ["Title is required and cannot be empty"]
    else if d.title.length > 255 then ["Title cannot exceed 255 characters"]
    else []
  let fileNameErrs :=
    if (jsTrim d.fileName).isEmpty then ["File name is required and cannot be empty"]
    else if d.fileName.length > 255 then ["File name cannot exceed 255 characters"]
    else []
  let contentErrs :=
    if (jsTrim d.content).isEmpty then ["Content is required and cannot be empty"]
    else if d.content.length > 10000 then ["Content cannot exceed 10,000 characters"]
    else []
  let typeErrs :=
    if d.documentType.isEmpty then ["Document type is required"]
    else if d.documentType ∉ DocumentTypeValues then
      ["Invalid document type. Must be one of: " ++ jsJoin ", " DocumentTypeValues]
    else []
  let urlErrs :=
    if strTruthy d.imageUrl ∧ ¬isValidUrl (d.imageUrl.getD "") then
      ["Invalid image URL format"]
    else []
  let entityErrs := (validateEntities d.entities).errors
  let photoErrs :=
    if d.documentType = "photo" ∧ ¬strTruthy d.imageUrl then
      ["Photo documents must have an image URL"]
    else []
  let errors := titleErrs ++ fileNameErrs ++ contentErrs ++ typeErrs ++ urlErrs
      ++ entityErrs ++ photoErrs
  ⟨errors.isEmpty, errors⟩

/-! ## Relational store (rows of `schema.prisma`, ids from a counter) -/

/-- A row of the `entities` table. -/
structure EntityRow where
  id : Nat
  name : String
  date : Option String
  type : String
deriving DecidableEq, Repr

/-- The core document fields passed to `createWithEntities`. -/
structure DocCore where
  title : String
  fileName : String
  content : String
  imageUrl : Option String
  documentType : String
deriving DecidableEq, Repr

/-- A row of the `documents` table together with its many-to-many entity
links. -/
structure DocumentRow extends DocCore where
  id : Nat
  entityIds : List Nat
deriving DecidableEq, Repr

/-- The relational store: both tables plus the id counter. -/
structure DB where
  entities : List EntityRow
  documents : List DocumentRow
  nextId : Nat
deriving DecidableEq, Repr

def emptyDB : DB := ⟨[], [], 0⟩

/-- The primitive store operations the `saveDocument` transaction body
performs, as fallible state transformers.  `saveDocumentWith` is stated
over an arbitrary `TxOps` so that rollback behaviour can be verified
for every possible failure of a primitive; `defaultTxOps` below is the
embedding of the concrete Prisma queries. -/
structure TxOps where
  findByNameAndType : String → String → DB → Except String (Option EntityRow × DB)
  createEntity : EntityIn → DB → Except String (EntityRow × DB)
  createWithEntities : DocCore → List Nat → DB → Except String (DocumentRow × DB)

/-- `EntityRepository.findByNameAndType`: `findFirst` with
case-insensitive name equality and exact type match. -/
def findEntityByNameAndType (name ty : String) (db : DB) : Option EntityRow :=
  db.entities.find? (fun r => jsToLower r.name = jsToLower name ∧ r.type = ty)

/-- The row inserted by the inherited `BaseRepository.create` that
`saveDocument` calls: the payload fields stored as given — no date
parsing happens here (that logic lives only in `createFromEntity`, which
the save path does not invoke). -/
def baseCreateEntityRow (e : EntityIn) (db : DB) : EntityRow :=
  ⟨db.nextId, e.name, e.date, e.type⟩

/-- The store after that insert. -/
def baseCreateEntityDB (e : EntityIn) (db : DB) : DB :=
  { db with
      entities := db.entities ++ [baseCreateEntityRow e db],
      nextId := db.nextId + 1 }

/-- The document row inserted by `DocumentRepository.createWithEntities`,
linked to the given entity ids. -/
def createdDocRow (core : DocCore) (ids : List Nat) (db : DB) : DocumentRow :=
  { core with id := db.nextId, entityIds := ids }

/-- The store after the document insert. -/
def createdDocDB (core : DocCore) (ids : List Nat) (db : DB) : DB :=
  { db with
      documents := db.documents ++ [createdDocRow core ids db],
      nextId := db.nextId + 1 }

/-- The concrete store operations used by `saveDocument`:
`EntityRepository.findByNameAndType`, the inherited
`BaseRepository.create`, and `DocumentRepository.createWithEntities`. -/
def defaultTxOps : TxOps where
  findByNameAndType name ty db := .ok (findEntityByNameAndType name ty db, db)
  createEntity e db := .ok (baseCreateEntityRow e db, baseCreateEntityDB e db)
  createWithEntities core ids db := .ok (createdDocRow core ids db, createdDocDB core ids db)

def pad2 (n : Nat) : String := if n < 10 then "0" ++ toString n else toString n

/-- `EntityRepository.createFromEntity`: builds `data` from name and type
only, then — for date-typed entities with a parseable name — adds the
normalized `toISOString()` value.  NOTE: `saveDocument` never calls this
method; its entity-creation path is the inherited `BaseRepository.create`
(`defaultTxOps.createEntity`). -/
def createFromEntity (e : EntityIn) (db : DB) : EntityRow × DB :=
  let dateVal : Option String :=
    if e.type = "date" ∧ ¬e.name.isEmpty then
      (jsParseDate e.name).map (fun d =>
        toString d.year ++ "-" ++ pad2 d.month ++ "-" ++ pad2 d.day ++ "T00:00:00.000Z")
    else none
  let row : EntityRow := ⟨db.nextId, e.name, dateVal, e.type⟩
  (row, { db with entities := db.entities ++ [row], nextId := db.nextId + 1 })

/-! ## saveDocument

The transaction body resolves the payload entities with
`Promise.all(entities.map(async ...))`.  Under the JS event loop on a
single serialized transaction connection this executes in two phases:
every `findByNameAndType` query is issued during the synchronous start of
its callback (so all of them are enqueued before any result is
processed), and each `create` is enqueued only after its own find
resolves, i.e. behind all the finds.  `runFinds`/`runCreates` encode
exactly that schedule. -/

/-- Phase 1 of the `Promise.all` entity resolution: all lookups run
before any create, each seeing the store as left by the previous lookup. -/
def runFinds (ops : TxOps) : List EntityIn → DB → Except String (List (EntityIn × Option EntityRow) × DB)
  | [], db => .ok ([], db)
  | e :: rest, db =>
    match ops.findByNameAndType e.name e.type db with
    | .error err => .error err
    | .ok (found, db') =>
      match runFinds ops rest db' with
      | .error err => .error err
      | .ok (pairs, db'') => .ok ((e, found) :: pairs, db'')

/-- Phase 2 of the `Promise.all` entity resolution: entities whose lookup
(from phase 1) missed are created, in payload order. -/
def runCreates (ops : TxOps) : List (EntityIn × Option EntityRow) → DB → Except String (List EntityRow × DB)
  | [], db => .ok ([], db)
  | (_, some row) :: rest, db =>
    match runCreates ops rest db with
    | .error err => .error err
    | .ok (rows, db') => .ok (row :: rows, db')
  | (e, none) :: rest, db =>
    match ops.createEntity e db with
    | .error err => .error err
    | .ok (row, db') =>
      match runCreates ops rest db' with
      | .error err => .error err
      | .ok (rows, db'') => .ok (row :: rows, db'')

/-- The body of the `prisma.$transaction` callback in `saveDocument`:
resolve entities (two-phase `Promise.all` schedule), then create the
document row connected to the resolved entity ids. -/
def saveTxBody (ops : TxOps) (d : CreateDocumentRequest) (db : DB) :
    Except String (DocumentRow × DB) :=
  match runFinds ops d.entities db with
  | .error err => .error err
  | .ok (pairs, db1) =>
    match runCreates ops pairs db1 with
    | .error err => .error err
    | .ok (rows, db2) =>
      ops.createWithEntities
        ⟨d.title, d.fileName, d.content, d.imageUrl, d.documentType⟩
        (rows.map (·.id)) db2

/-- `prisma.$transaction`: commit the body's final state on success, roll
back to the initial state on any failure. -/
def transaction (body : DB → Except String (α × DB)) (db : DB) :
    Except String α × DB :=
  match body db with
  | .ok (a, db') => (.ok a, db')
  | .error e => (.error e, db)

/-- `DocumentProcessingService.saveDocument`: validate, run the
transaction, and wrap any failure as
`Failed to save document: <cause>` (the outer catch). -/
def saveDocumentWith (ops : TxOps) (d : CreateDocumentRequest) (db : DB) :
    Except String DocumentRow × DB :=
  let v := validateDocumentForSave d
  let inner : Except String DocumentRow × DB :=
    if v.isValid then transaction (saveTxBody ops d) db
    else (.error ("Validation failed: " ++ jsJoin ", " v.errors), db)
  match inner with
  | (.ok doc, db') => (.ok doc, db')
  | (.error e, db') => (.error ("Failed to save document: " ++ e), db')

/-- `saveDocument` against the concrete store operations. -/
def saveDocument (d : CreateDocumentRequest) (db : DB) : Except String DocumentRow × DB :=
  saveDocumentWith defaultTxOps d db

/-! ## Cache and the analysis orchestrator -/

/-- A JS `Map`-style association update: replace the first binding of the
key, or append a fresh one. -/
def assocSet {α : Type} (k : String) (v : α) : List (String × α) → List (String × α)
  | [] => [(k, v)]
  | (k', v') :: rest => if k' = k then (k, v) :: rest else (k', v') :: assocSet k v rest

/-- Lookup in a JS `Map`-style association list. -/
def assocGet {α : Type} (k : String) : List (String × α) → Option α
  | [] => none
  | (k', v') :: rest => if k' = k then some v' else assocGet k rest

/-- `ParsedAnalysis`: the structured fields parsed from the AI output. -/
structure ParsedAnalysis where
  documentType : String
  title : String
  content : String
  entities : List EntityIn
deriving DecidableEq, Repr

/-- `AnalysisResult` from the api types. -/
structure AnalysisResult where
  analysis : ParsedAnalysis
  image : String
  fileName : String
  fileId : Option String := none
  processedAt : String
  savedDocument : Option DocumentRow := none
deriving DecidableEq, Repr

/-- A value held by the cache: either a string (the converted image URL)
or an analysis result.  The two key families (`image_...`, `analysis_...`)
each only ever store their own constructor. -/
inductive CacheValue where
  | vStr (s : String)
  | vAnalysis (a : AnalysisResult)
deriving DecidableEq, Repr

/-- Modelled from the spec: a CacheService entry (the service's source is
not under src/); per §4.1 each entry carries its expiry instant. -/
structure CacheEntry where
  value : CacheValue
  expiresAt : Nat
deriving DecidableEq, Repr

/-- `File` from the database types: the fields the pipeline reads. -/
structure File where
  id : String
  name : String
  mimeType : String
deriving DecidableEq, Repr

/-- File metadata returned by the storage collaborator. -/
structure FileMeta where
  name : String
  mimeType : String
  size : Nat
deriving DecidableEq, Repr

/-- The in-process mutable environment of the orchestrator: the cache,
the current instant, and invocation counters for the three external
effects whose (non-)re-execution the spec talks about. -/
structure Env where
  cache : List (String × CacheEntry)
  now : Nat
  fetchCount : Nat
  convertCount : Nat
  classifyCount : Nat
deriving DecidableEq, Repr

/-- Modelled from the spec: `CacheService.get` (source not under src/);
per §4.1 a read of an expired entry behaves as absent. -/
def cacheGet (key : String) (env : Env) : Option CacheValue :=
  match assocGet key env.cache with
  | some e => if env.now < e.expiresAt then some e.value else none
  | none => none

/-- Modelled from the spec: `CacheService.set` (source not under src/)
with a TTL in seconds. -/
def cacheSet (key : String) (v : CacheValue) (ttl : Nat) (env : Env) : Env :=
  { env with cache := assocSet key ⟨v, env.now + ttl⟩ env.cache }

/-- The external collaborators consumed by the orchestrator (storage
client, image converter, AI client), as result oracles. -/
structure Collab where
  getFileContent : String → Except String File
  getFileMetadata : String → Except String FileMeta
  documentToImage : File → Except String String
  analyzeImage : String → Except String String
  parseAnalysis : String → Except String ParsedAnalysis

/-- `DocumentProcessingService.convertToImage`: serve the
`image_<fileId>_<mimeType>` cache entry when it holds a string; otherwise
invoke the converter (counted), cache its output for 7200 s, and wrap a
converter failure as `Failed to convert document to image: <cause>`. -/
def convertToImage (c : Collab) (f : File) (env : Env) : Except String String × Env :=
  let key := "image_" ++ f.id ++ "_" ++ f.mimeType
  match cacheGet key env with
  | some (.vStr s) => (.ok s, env)
  | _ =>
    let env1 := { env with convertCount := env.convertCount + 1 }
    match c.documentToImage f with
    | .ok url => (.ok url, cacheSet key (.vStr url) 7200 env1)
    | .error e => (.error ("Failed to convert document to image: " ++ e), env1)

/-- `DocumentProcessingService.analyzeDocument`: return the cached
`analysis_<fileId>` entry unless `forceRefresh`; otherwise fetch content
and metadata (counted once — the two storage calls run as one
`Promise.all`), convert (via the separately cached `convertToImage`),
classify (counted) and parse, cache the assembled result for 3600 s, and
wrap any failure as `Failed to analyze document: <cause>`.
(An `analysis_` key only ever holds a `vAnalysis` value — see `cacheSet`
below — so no `vStr` case arises on a cache hit.) -/
def analyzeDocument (c : Collab) (fileId : String) (forceRefresh : Bool) (env : Env) :
    Except String AnalysisResult × Env :=
  let key := "analysis_" ++ fileId
  match cacheGet key env, forceRefresh with
  | some (.vAnalysis a), false => (.ok a, env)
  | _, _ =>
    let env1 := { env with fetchCount := env.fetchCount + 1 }
    match c.getFileContent fileId, c.getFileMetadata fileId with
    | .ok f0, .ok meta =>
      let f := { f0 with name := meta.name }
      match convertToImage c f env1 with
      | (.error e, env2) => (.error ("Failed to analyze document: " ++ e), env2)
      | (.ok imageUrl, env2) =>
        let env3 := { env2 with classifyCount := env2.classifyCount + 1 }
        match c.analyzeImage imageUrl with
        | .error e => (.error ("Failed to analyze document: " ++ e), env3)
        | .ok text =>
          match c.parseAnalysis text with
          | .error e => (.error ("Failed to analyze document: " ++ e), env3)
          | .ok parsed =>
            let result : AnalysisResult :=
              { analysis := parsed, image := imageUrl, fileName := f.name,
                fileId := some fileId, processedAt := toString env3.now,
                savedDocument := none }
            (.ok result, cacheSet key (.vAnalysis result) 3600 env3)
    | .error e, _ => (.error ("Failed to analyze document: " ++ e), env1)
    | _, .error e => (.error ("Failed to analyze document: " ++ e), env1)

/-! ## Job tracker -/

/-- The five job states of the `ProcessingJob` interface. -/
inductive JobStatus where
  | pending
  | processing
  | completed
  | failed
  | cancelled
deriving DecidableEq, Repr

/-- `ProcessingJob` (timestamps as abstract instants). -/
structure Job where
  id : String
  status : JobStatus
  progress : Nat
  result : Option AnalysisResult := none
  error : Option String := none
  createdAt : Nat
  updatedAt : Nat
deriving DecidableEq, Repr

/-- `AppError`: message plus HTTP-ish status code. -/
structure AppErr where
  message : String
  statusCode : Nat
deriving DecidableEq, Repr

/-- The in-memory `processingJobs` map. -/
abbrev JobMap : Type := List (String × Job)

/-- The fresh job record `startAsyncProcessing` registers before
scheduling the background work. -/
def newJob (jobId : String) (t : Nat) : Job :=
  { id := jobId, status := .pending, progress := 0, createdAt := t, updatedAt := t }

/-- `DocumentProcessingService.cancelProcessing`: 404 for an unknown job,
400 for a `completed` or `failed` job, and otherwise set the job's status
to `cancelled` with a fresh `updatedAt`. -/
def cancelProcessing (jobId : String) (now : Nat) (jobs : JobMap) : Except AppErr JobMap :=
  match assocGet jobId jobs with
  | none => .error ⟨"Processing job not found", 404⟩
  | some job =>
    if job.status = .completed ∨ job.status = .failed then
      .error ⟨"Cannot cancel completed or failed job", 400⟩
    else
      .ok (assocSet jobId { job with status := .cancelled, updatedAt := now } jobs)

/-! ### The background task of `startAsyncProcessing`

The `setImmediate` callback is a sequence of synchronous segments
separated by `await`s (`analyzeDocument`, and `saveDocument` when
`autoSave`).  Each segment below is one such synchronous block; none of
them inspects the job's status before writing. -/

/-- First synchronous segment: status `processing`, progress 10 and then
50, before the `await analyzeDocument`. -/
def bgStartSeg (t : Nat) (job : Job) : Job :=
  { job with status := .processing, progress := 50, updatedAt := t }

/-- Segment after `analyzeDocument` resolves: progress 80 (written
unconditionally, whatever the current status is). -/
def bgProgress80 (t : Nat) (job : Job) : Job :=
  { job with progress := 80, updatedAt := t }

/-- Final segment on success: status `completed`, progress 100, result
stored (written unconditionally, whatever the current status is). -/
def bgComplete (r : AnalysisResult) (t : Nat) (job : Job) : Job :=
  { job with status := .completed, progress := 100, result := some r, updatedAt := t }

/-- The catch-all of the background task: status `failed` with the error
message stored. -/
def bgFail (msg : String) (t : Nat) (job : Job) : Job :=
  { job with status := .failed, error := some msg, updatedAt := t }

/-- `ProcessDocumentOptions`. -/
structure ProcessOptions where
  autoSave : Bool := false
  forceRefresh : Bool := false
deriving DecidableEq, Repr

/-- The `CreateDocumentRequest` the background task assembles from an
analysis result when `autoSave` is requested. -/
def reqOfAnalysis (r : AnalysisResult) : CreateDocumentRequest :=
  { title := r.analysis.title, fileName := r.fileName, content := r.analysis.content,
    imageUrl := some r.image, documentType := r.analysis.documentType,
    entities := r.analysis.entities }

/-- The whole `setImmediate` body of `startAsyncProcessing` run without
interference: analysis, optional auto-save, completion bookkeeping, with
every exception captured into the job record by the surrounding
try/catch. -/
def backgroundRun (c : Collab) (fileId : String) (opts : ProcessOptions) (t : Nat)
    (job : Job) (env : Env) (db : DB) : Job × Env × DB :=
  let job1 := bgStartSeg t job
  match analyzeDocument c fileId opts.forceRefresh env with
  | (.error e, env') => (bgFail e t job1, env', db)
  | (.ok r, env') =>
    let job2 := bgProgress80 t job1
    if opts.autoSave then
      match saveDocumentWith defaultTxOps (reqOfAnalysis r) db with
      | (.error e, db') => (bgFail e t job2, env', db')
      | (.ok doc, db') =>
        let r' := { r with savedDocument := some doc }
        (bgComplete r' t job2, env', db')
    else
      (bgComplete r t job2, env', db)

/-! ## Concrete instances used by the closed theorems -/

/-- The example payload of spec §8: two person entities whose names differ
only by case. -/
def reqJS : CreateDocumentRequest :=
  { title := "Letter from the Front", fileName := "l1.pdf", content := "...",
    imageUrl := none, documentType := "letter",
    entities := [⟨"John Smith", "person", none⟩, ⟨"john smith", "person", none⟩] }

/-- A payload whose single date entity has text that does not parse as a
date. -/
def reqBadDate : CreateDocumentRequest :=
  { title := "T", fileName := "f.pdf", content := "c", imageUrl := none,
    documentType := "report", entities := [⟨"not-a-date", "date", none⟩] }

/-- An invalid payload: empty title and a photo document without an image
URL. -/
def reqPhotoNoUrl : CreateDocumentRequest :=
  { title := "", fileName := "f.pdf", content := "c", imageUrl := none,
    documentType := "photo", entities := [⟨"Alice", "person", none⟩] }

/-- A parsed analysis used by the concrete collaborator. -/
def paW : ParsedAnalysis :=
  { documentType := "letter", title := "T", content := "c",
    entities := [⟨"John Smith", "person", none⟩] }

/-- A collaborator whose every call succeeds. -/
def collabW : Collab :=
  { getFileContent := fun fid => .ok ⟨fid, "orig", "pdf"⟩,
    getFileMetadata := fun _ => .ok ⟨"f.pdf", "pdf", 1⟩,
    documentToImage := fun _ => .ok "img1",
    analyzeImage := fun _ => .ok "raw",
    parseAnalysis := fun _ => .ok paW }

/-- A collaborator whose storage fetch fails. -/
def collabFail : Collab :=
  { getFileContent := fun _ => .error "storage down",
    getFileMetadata := fun _ => .ok ⟨"f.pdf", "pdf", 1⟩,
    documentToImage := fun _ => .error "down",
    analyzeImage := fun _ => .error "down",
    parseAnalysis := fun _ => .error "down" }

/-- Store operations whose create step always fails (a possible behaviour
of the underlying store, e.g. a constraint violation). -/
def failOps : TxOps :=
  { findByNameAndType := fun _ _ db => .ok (none, db),
    createEntity := fun _ _ => .error "boom",
    createWithEntities := fun _ _ _ => .error "boom" }

/-- The empty orchestrator environment. -/
def envEmpty : Env := ⟨[], 0, 0, 0, 0⟩

/-- An environment whose image cache already holds a converted image for
file `f` with mime type `pdf` (entry unexpired at instant 0). -/
def envImgCached : Env := ⟨[("image_f_pdf", ⟨.vStr "cachedImg", 100⟩)], 0, 0, 0, 0⟩

/-- The result `collabW` produces at instant 0 when the conversion step
is served from the pre-populated image cache of `envImgCached`. -/
def rImgCached : AnalysisResult :=
  { analysis := paW, image := "cachedImg", fileName := "f.pdf", fileId := some "f",
    processedAt := "0", savedDocument := none }

/-- The environment left by `analyzeDocument collabW "f" true envImgCached`. -/
def envImgCachedAfter : Env :=
  { cache := [("image_f_pdf", ⟨.vStr "cachedImg", 100⟩),
              ("analysis_f", ⟨.vAnalysis rImgCached, 3600⟩)],
    now := 0, fetchCount := 1, convertCount := 0, classifyCount := 1 }

/-- The analysis result `collabW` produces on a cache miss at instant 0. -/
def rW : AnalysisResult :=
  { analysis := paW, image := "img1", fileName := "f.pdf", fileId := some "f",
    processedAt := "0", savedDocument := none }

/-- The environment after a first `analyzeDocument collabW "f" false
envEmpty` run: both cache entries written, each counter at 1. -/
def envW1 : Env :=
  { cache := [("image_f_pdf", ⟨.vStr "img1", 7200⟩),
              ("analysis_f", ⟨.vAnalysis rW, 3600⟩)],
    now := 0, fetchCount := 1, convertCount := 1, classifyCount := 1 }

/-! ### A concrete interleaving of the background task with `cancelProcessing`

`startAsyncProcessing` registers the pending job, the background task
runs its first synchronous segment and then suspends awaiting
`analyzeDocument`; at that suspension point the caller's
`cancelProcessing` runs to completion; the background task then resumes
with the remaining segments exactly as written (no segment inspects the
job status first).  Note `cancelProcessing` and the background closure
mutate the same job object, so the resumed segments start from the
cancelled record. -/

/-- The job table after submit: one pending job `j` created at instant 0. -/
def c2Jobs0 : JobMap := assocSet "j" (newJob "j" 0) []

/-- After the background task's first segment (instant 1). -/
def c2Jobs1 : JobMap := assocSet "j" (bgStartSeg 1 (newJob "j" 0)) c2Jobs0

/-- The job record `cancelProcessing` leaves at instant 2. -/
def c2JobCancelled : Job :=
  { id := "j", status := .cancelled, progress := 50, createdAt := 0, updatedAt := 2 }

/-- The expected job table after the successful cancellation. -/
def c2Jobs2 : JobMap := [("j", c2JobCancelled)]

/-- The table after the background task resumes and writes progress 80
(instant 3) to the cancelled job. -/
def c2Jobs3 : JobMap := assocSet "j" (bgProgress80 3 c2JobCancelled) c2Jobs2

/-- The final table after the background task's completion segment
(instant 4). -/
def c2Jobs4 : JobMap :=
  assocSet "j" (bgComplete rW 4 (bgProgress80 3 c2JobCancelled)) c2Jobs3

/-- A table with one job per status, for the cancellation theorems. -/
def jobWith (s : JobStatus) : Job :=
  { id := "j", status := s, progress := 30, createdAt := 0, updatedAt := 1 }

/-! ## Shared lemmas -/

theorem assocGet_set_self {α : Type} (k : String) (v : α) (m : List (String × α)) :
    assocGet k (assocSet k v m) = some v := by
  induction m with
  | nil => simp [assocSet, assocGet]
  | cons hd tl ih =>
    cases hd with
    | mk k0 v0 =>
      by_cases hk : k0 = k
      · simp [assocSet, assocGet, hk]
      · simp [assocSet, assocGet, hk, ih]

theorem assocGet_set_ne {α : Type} {k k' : String} (v : α) (m : List (String × α))
    (h : k' ≠ k) : assocGet k' (assocSet k v m) = assocGet k' m := by
  induction m with
  | nil => simp [assocSet, assocGet, Ne.symm h]
  | cons hd tl ih =>
    cases hd with
    | mk k0 v0 =>
      by_cases hk : k0 = k
      · simp [assocSet, assocGet, hk, Ne.symm h]
      · simp [assocSet, assocGet, hk, ih]

/-! ## Claim theorems -/

/-- C1.  The claim states that `saveDocument` creates exactly
`|distinct(name-lower, type)|` entity rows.  On the spec §8 example
payload (two person entities whose names differ only by case, one
distinct key) the transaction creates TWO rows: the `Promise.all`
resolution runs both lookups before either insert, so both miss and both
create.  This evaluates the save pipeline at that failing input. -/
theorem saveDocument_duplicate_key_creates_two_rows :
    (saveDocument reqJS emptyDB).2.entities.length = 2 ∧
    ((reqJS.entities.map (fun e => (jsToLower e.name, e.type))).dedup).length = 1 ∧
    ((saveDocument reqJS emptyDB).2.entities.map (fun r => (jsToLower r.name, r.type)))
      = [("john smith", "person"), ("john smith", "person")] := by decide

/-- C2.  The claim states that once `cancelProcessing` succeeds the job
never later becomes `completed` and receives no further progress/result
writes.  In the code the background task checks nothing before its
writes: in the interleaving where the cancel lands while the task awaits
`analyzeDocument`, the succeeding cancel (first conjunct) is followed by
the task's own segments, which overwrite the job to progress 80 and then
`completed`/100. -/
theorem cancel_then_background_completes :
    cancelProcessing "j" 2 c2Jobs1 = .ok c2Jobs2 ∧
    (assocGet "j" c2Jobs2).map Job.status = some .cancelled ∧
    (assocGet "j" c2Jobs3).map Job.progress = some 80 ∧
    (assocGet "j" c2Jobs4).map Job.status = some .completed ∧
    (assocGet "j" c2Jobs4).map Job.progress = some 100 := by decide

/-- C3 counterexample.  With `forceRefresh: true` and a pre-populated
image cache, `analyzeDocument` still serves the convert-to-image sub-step
from the cache: the returned result carries the cached image and the
converter is never invoked (`convertCount = 0`), while fetch and classify
do re-run. -/
theorem forceRefresh_serves_cached_image :
    (analyzeDocument collabW "f" true envImgCached).1.map (·.image) = .ok "cachedImg" ∧
    (analyzeDocument collabW "f" true envImgCached).2.convertCount = 0 ∧
    (analyzeDocument collabW "f" true envImgCached).2.fetchCount = 1 ∧
    (analyzeDocument collabW "f" true envImgCached).2.classifyCount = 1 := by decide

/-- C4 counterexample.  A payload whose date entity's name does not parse
as a date is rejected by validation, so the save fails (with the
date-format message) and the store is untouched: malformed date text DOES
block document save. -/
theorem malformed_date_blocks_save :
    saveDocument reqBadDate emptyDB =
      (.error "Failed to save document: Validation failed: Entity 1: Invalid date format. Use YYYY-MM-DD or valid date string",
       emptyDB) := by decide

/-- C5 counterexample.  `cancelProcessing` on a job already in state
`cancelled` succeeds (the code only rejects `completed` and `failed`),
contradicting the claim that every non-pending/non-processing state is
rejected with `InvalidTransition`. -/
theorem cancel_cancelled_job_succeeds :
    (cancelProcessing "j" 5 [("j", jobWith .cancelled)]).isOk = true := by decide

/-- C7.  Whatever the store primitives do (arbitrary `TxOps`, so in
particular any failing lookup, entity insert or document insert), when
`saveDocumentWith` returns an error its final store equals the initial
store: all writes happen inside the `transaction` body, which is rolled
back on failure. -/
theorem saveDocument_rollback_on_error (ops : TxOps) (d : CreateDocumentRequest)
    (db : DB) (e : String) (h : (saveDocumentWith ops d db).1 = .error e) :
    (saveDocumentWith ops d db).2 = db := by
  unfold saveDocumentWith at h ⊢
  by_cases hv : (validateDocumentForSave d).isValid
  · simp only [hv, if_true] at h ⊢
    unfold transaction at h ⊢
    cases hb : saveTxBody ops d db with
    | ok p => cases p; simp [hb] at h ⊢
    | error err => simp [hb]
  · simp only [hv] at h ⊢
    simp

/-- C7 witness: with store operations whose insert always fails and a
valid payload, the save errors and the store is returned unchanged. -/
theorem saveDocument_rollback_on_error_witness :
    (saveDocumentWith failOps reqJS emptyDB).2 = emptyDB :=
  saveDocument_rollback_on_error failOps reqJS emptyDB
    "Failed to save document: boom" (by decide)

/-- C5 amended.  For a tracked job, `cancelProcessing` succeeds exactly
when the job is `pending`, `processing` or (idempotently) already
`cancelled`, setting its status to `cancelled`; for `completed` and
`failed` jobs it fails with the 400 cannot-cancel error. -/
theorem cancelProcessing_transitions (jobs : JobMap) (jobId : String) (now : Nat)
    (job : Job) (h : assocGet jobId jobs = some job) :
    ((cancelProcessing jobId now jobs).isOk = true ↔
      (job.status = .pending ∨ job.status = .processing ∨ job.status = .cancelled)) ∧
    ((job.status = .completed ∨ job.status = .failed) →
      cancelProcessing jobId now jobs = .error ⟨"Cannot cancel completed or failed job", 400⟩) ∧
    (∀ m, cancelProcessing jobId now jobs = .ok m →
      assocGet jobId m = some { job with status := .cancelled, updatedAt := now }) := by
  unfold cancelProcessing
  rw [h]
  cases hs : job.status <;>
    simp [Except.isOk, Except.toBool, hs, assocGet_set_self]

/-- C5 witness: instantiating the transition characterisation on a
one-job table holding a pending job. -/
theorem cancelProcessing_transitions_witness :
    (cancelProcessing "j" 7 [("j", jobWith .pending)]).isOk = true :=
  ((cancelProcessing_transitions [("j", jobWith .pending)] "j" 7
    (jobWith .pending) (by decide)).1).2 (Or.inl (by decide))

/-- C10.  A successful `cancelProcessing` changes only the target job's
status (to `cancelled`) and `updatedAt`; its progress, result, error and
createdAt are untouched, and every other key of the table maps to exactly
what it mapped to before. -/
theorem cancelProcessing_frame (jobs : JobMap) (jobId : String) (now : Nat)
    (job : Job) (m : JobMap)
    (h : assocGet jobId jobs = some job)
    (hs : job.status = .pending ∨ job.status = .processing)
    (hc : cancelProcessing jobId now jobs = .ok m) :
    (∃ j', assocGet jobId m = some j' ∧ j'.status = .cancelled ∧ j'.updatedAt = now ∧
      j'.progress = job.progress ∧ j'.result = job.result ∧ j'.error = job.error ∧
      j'.createdAt = job.createdAt) ∧
    (∀ k, k ≠ jobId → assocGet k m = assocGet k jobs) := by
  unfold cancelProcessing at hc
  rw [h] at hc
  have hcond : ¬(job.status = .completed ∨ job.status = .failed) := by
    rcases hs with hs | hs <;> simp [hs]
  simp only [if_neg hcond] at hc
  cases hc
  constructor
  · exact ⟨_, assocGet_set_self _ _ _, rfl, rfl, rfl, rfl, rfl, rfl⟩
  · intro k hk
    exact assocGet_set_ne _ _ hk

/-- C10 witness: the frame property applied to a one-job table holding a
processing job. -/
theorem cancelProcessing_frame_witness :
    assocGet "other" (assocSet "j" { jobWith .processing with status := .cancelled, updatedAt := 9 }
      [("j", jobWith .processing)]) = assocGet "other" [("j", jobWith .processing)] :=
  (cancelProcessing_frame [("j", jobWith .processing)] "j" 9 (jobWith .processing)
    (assocSet "j" { jobWith .processing with status := .cancelled, updatedAt := 9 }
      [("j", jobWith .processing)])
    (by decide) (Or.inr (by decide)) (by decide)).2 "other" (by decide)

/-- C9.  The background task always terminates with the job in
`completed` or `failed` (no exception escapes the catch-all); when the
analyze step fails, or the auto-save step fails, the job is `failed` with
exactly that error message stored in its error field. -/
theorem backgroundRun_captures_errors (c : Collab) (fileId : String)
    (opts : ProcessOptions) (t : Nat) (job : Job) (env : Env) (db : DB) :
    ((backgroundRun c fileId opts t job env db).1.status = .completed ∨
     (backgroundRun c fileId opts t job env db).1.status = .failed) ∧
    (∀ e env', analyzeDocument c fileId opts.forceRefresh env = (.error e, env') →
      (backgroundRun c fileId opts t job env db).1.status = .failed ∧
      (backgroundRun c fileId opts t job env db).1.error = some e) ∧
    (∀ r env' e db', analyzeDocument c fileId opts.forceRefresh env = (.ok r, env') →
      opts.autoSave = true →
      saveDocumentWith defaultTxOps (reqOfAnalysis r) db = (.error e, db') →
      (backgroundRun c fileId opts t job env db).1.status = .failed ∧
      (backgroundRun c fileId opts t job env db).1.error = some e) := by
  unfold backgroundRun
  cases ha : analyzeDocument c fileId opts.forceRefresh env with
  | mk res env' =>
    cases res with
    | error e =>
      refine ⟨Or.inr rfl, ?_, ?_⟩
      · intro e0 env0 h0
        cases h0
        exact ⟨rfl, rfl⟩
      · intro r env0 e0 db0 h0
        simp at h0
    | ok r =>
      cases hsave : opts.autoSave with
      | false =>
        refine ⟨Or.inl ?_, ?_, ?_⟩
        · simp [hsave, bgComplete]
        · intro e0 env0 h0
          simp at h0
        · intro r0 env0 e0 db0 h0 hA
          simp [hsave] at hA
      | true =>
        cases hs : saveDocumentWith defaultTxOps (reqOfAnalysis r) db with
        | mk sres db' =>
          cases sres with
          | error e =>
            refine ⟨Or.inr ?_, ?_, ?_⟩
            · simp [hsave, hs, bgFail]
            · intro e0 env0 h0
              simp at h0
            · intro r0 env0 e0 db0 h0 _ h1
              cases h0
              rw [hs] at h1
              cases h1
              simp [hsave, hs, bgFail]
          | ok doc =>
            refine ⟨Or.inl ?_, ?_, ?_⟩
            · simp [hsave, hs, bgComplete]
            · intro e0 env0 h0
              simp at h0
            · intro r0 env0 e0 db0 h0 _ h1
              cases h0
              rw [hs] at h1
              cases h1

/-- C9 witness: with a storage client that fails, the background task
records the wrapped failure message on the job and ends in `failed`. -/
theorem backgroundRun_captures_errors_witness :
    (backgroundRun collabFail "f" {} 3 (newJob "j" 0) envEmpty emptyDB).1.status = .failed ∧
    (backgroundRun collabFail "f" {} 3 (newJob "j" 0) envEmpty emptyDB).1.error =
      some "Failed to analyze document: storage down" :=
  (backgroundRun_captures_errors collabFail "f" {} 3 (newJob "j" 0) envEmpty emptyDB).2.1
    "Failed to analyze document: storage down"
    { envEmpty with fetchCount := 1 } (by decide)

/-- C8.  `validateDocumentForSave` accumulates every violation at once:
validity is exactly emptiness of the error list; each rule (non-empty
trimmed title/fileName/content with bounds 255/255/10,000, documentType
membership in the enum, 1–50 entities, photo implies imageUrl) contributes
its specific message; and an invalid payload makes `saveDocumentWith`
fail — for any store — with the joined message and an unchanged store. -/
theorem validateDocumentForSave_spec (d : CreateDocumentRequest) :
    ((validateDocumentForSave d).isValid = true ↔ (validateDocumentForSave d).errors = []) ∧
    ((jsTrim d.title).isEmpty = true →
      "Title is required and cannot be empty" ∈ (validateDocumentForSave d).errors) ∧
    ((jsTrim d.title).isEmpty = false → d.title.length > 255 →
      "Title cannot exceed 255 characters" ∈ (validateDocumentForSave d).errors) ∧
    ((jsTrim d.fileName).isEmpty = true →
      "File name is required and cannot be empty" ∈ (validateDocumentForSave d).errors) ∧
    ((jsTrim d.fileName).isEmpty = false → d.fileName.length > 255 →
      "File name cannot exceed 255 characters" ∈ (validateDocumentForSave d).errors) ∧
    ((jsTrim d.content).isEmpty = true →
      "Content is required and cannot be empty" ∈ (validateDocumentForSave d).errors) ∧
    ((jsTrim d.content).isEmpty = false → d.content.length > 10000 →
      "Content cannot exceed 10,000 characters" ∈ (validateDocumentForSave d).errors) ∧
    (d.documentType ∉ DocumentTypeValues → (validateDocumentForSave d).isValid = false) ∧
    (d.entities.length = 0 →
      "At least one entity is required" ∈ (validateDocumentForSave d).errors) ∧
    (d.entities.length > 50 →
      "Cannot have more than 50 entities per document" ∈ (validateDocumentForSave d).errors) ∧
    (d.documentType = "photo" → strTruthy d.imageUrl = false →
      "Photo documents must have an image URL" ∈ (validateDocumentForSave d).errors) ∧
    ((validateDocumentForSave d).errors ≠ [] → ∀ ops db,
      saveDocumentWith ops d db =
        (.error ("Failed to save document: " ++
          ("Validation failed: " ++ jsJoin ", " (validateDocumentForSave d).errors)), db)) := by
  refine ⟨?_, ?_, ?_, ?_, ?_, ?_, ?_, ?_, ?_, ?_, ?_, ?_⟩
  · simp [validateDocumentForSave, List.isEmpty_iff]
  · intro h
    simp [validateDocumentForSave, h]
  · intro h h'
    simp [validateDocumentForSave, h, h']
  · intro h
    simp [validateDocumentForSave, h]
  · intro h h'
    simp [validateDocumentForSave, h, h']
  · intro h
    simp [validateDocumentForSave, h]
  · intro h h'
    simp [validateDocumentForSave, h, h']
  · intro h
    by_cases he : d.documentType.isEmpty
    · simp [validateDocumentForSave, h, he, List.isEmpty_iff]
    · simp [validateDocumentForSave, h, he, List.isEmpty_iff]
  · intro h
    simp [validateDocumentForSave, validateEntities, h]
  · intro h
    have h0 : ¬d.entities.length = 0 := by omega
    simp [validateDocumentForSave, validateEntities, h, h0]
  · intro h h'
    simp [validateDocumentForSave, h, h']
  · intro h ops db
    have hv : (validateDocumentForSave d).isValid = false := by
      rcases hiv : (validateDocumentForSave d).isValid with _ | _
      · rfl
      · exact absurd (((validateDocumentForSave d).errors.isEmpty_iff).mp
          (by simpa [validateDocumentForSave] using hiv)) h
    unfold saveDocumentWith
    simp [hv]

/-- C8 witness: the empty-title photo payload without an image URL
carries both the title message and the photo/imageUrl message at once. -/
theorem validateDocumentForSave_spec_witness :
    "Title is required and cannot be empty" ∈ (validateDocumentForSave reqPhotoNoUrl).errors ∧
    "Photo documents must have an image URL" ∈ (validateDocumentForSave reqPhotoNoUrl).errors := by
  obtain ⟨h1, h2, h3, h4, h5, h6, h7, h8, h9, h10, h11, h12⟩ :=
    validateDocumentForSave_spec reqPhotoNoUrl
  exact ⟨h2 (by decide), h11 rfl (by decide)⟩

/-- `convertToImage` never touches the fetch/classify counters or the
clock. -/
theorem convertToImage_preserves (c : Collab) (f : File) (env : Env) :
    (convertToImage c f env).2.fetchCount = env.fetchCount ∧
    (convertToImage c f env).2.classifyCount = env.classifyCount ∧
    (convertToImage c f env).2.now = env.now := by
  unfold convertToImage
  rcases hcg : cacheGet ("image_" ++ f.id ++ "_" ++ f.mimeType) env with _ | v
  · cases hdi : c.documentToImage f <;> simp [hcg, hdi, cacheSet]
  · cases v with
    | vStr s => simp [hcg]
    | vAnalysis a => cases hdi : c.documentToImage f <;> simp [hcg, hdi, cacheSet]

/-- C3 amended.  `analyzeDocument` with `forceRefresh: true` never
returns the cached analysis: the storage fetch always re-runs (counter
up by one regardless of cache contents), and on success the classifier
also re-ran; the convert-to-image sub-step, however, has its own cache
and may be served from it (see the counterexample). -/
theorem forceRefresh_reruns_fetch_and_classify (c : Collab) (fileId : String) (env : Env) :
    (analyzeDocument c fileId true env).2.fetchCount = env.fetchCount + 1 ∧
    (∀ r env', analyzeDocument c fileId true env = (.ok r, env') →
      env'.classifyCount = env.classifyCount + 1) := by
  unfold analyzeDocument
  rcases hcg : cacheGet ("analysis_" ++ fileId) env with _ | v
  all_goals try cases v
  all_goals {
    cases hfc : c.getFileContent fileId with
    | error e => simp [hcg, hfc]
    | ok f0 =>
      cases hfm : c.getFileMetadata fileId with
      | error e => simp [hcg, hfc, hfm]
      | ok meta =>
        rcases hcv : convertToImage c { f0 with name := meta.name }
            { env with fetchCount := env.fetchCount + 1 } with ⟨cres, env2⟩
        have hpres := convertToImage_preserves c { f0 with name := meta.name }
            { env with fetchCount := env.fetchCount + 1 }
        rw [hcv] at hpres
        simp only [] at hpres
        cases cres with
        | error e => simp [hcg, hfc, hfm, hcv, hpres.1]
        | ok url =>
          cases hai : c.analyzeImage url with
          | error e => simp [hcg, hfc, hfm, hcv, hai, hpres.1]
          | ok text =>
            cases hpa : c.parseAnalysis text with
            | error e => simp [hcg, hfc, hfm, hcv, hai, hpa, hpres.1]
            | ok parsed =>
              constructor
              · simp [hcg, hfc, hfm, hcv, hai, hpa, cacheSet, hpres.1]
              · intro r env' h
                simp [hcg, hfc, hfm, hcv, hai, hpa, cacheSet] at h
                rcases h with ⟨-, henv⟩
                rw [← henv]
                simp [hpres.2.1]
  }

/-- C3 amended witness: on the pre-populated image cache, the
force-refreshed call re-ran the classifier (counter up by one). -/
theorem forceRefresh_reruns_fetch_and_classify_witness :
    envImgCachedAfter.classifyCount = envImgCached.classifyCount + 1 :=
  (forceRefresh_reruns_fetch_and_classify collabW "f" envImgCached).2
    rImgCached envImgCachedAfter (by decide)

/-- C6.  Starting from an empty cache, a successful
`analyzeDocument fileId` (no `forceRefresh`) invokes fetch, convert and
classify exactly once, and a second call on the resulting environment
returns the very same cached `AnalysisResult` with the environment —
counters included — completely unchanged: one underlying
fetch/convert/classify sequence serves both calls. -/
theorem analyze_second_call_cached (c : Collab) (fileId : String) (env0 env1 : Env)
    (r : AnalysisResult) (h0 : env0.cache = [])
    (h1 : analyzeDocument c fileId false env0 = (.ok r, env1)) :
    env1.fetchCount = env0.fetchCount + 1 ∧
    env1.convertCount = env0.convertCount + 1 ∧
    env1.classifyCount = env0.classifyCount + 1 ∧
    analyzeDocument c fileId false env1 = (.ok r, env1) := by
  unfold analyzeDocument convertToImage at h1
  simp only [cacheGet, assocGet, h0] at h1
  cases hfc : c.getFileContent fileId with
  | error e => rw [hfc] at h1; simp at h1
  | ok f0 =>
    rw [hfc] at h1
    cases hfm : c.getFileMetadata fileId with
    | error e => rw [hfm] at h1; simp at h1
    | ok meta =>
      rw [hfm] at h1
      simp only [] at h1
      cases hdi : c.documentToImage { f0 with name := meta.name } with
      | error e => rw [hdi] at h1; simp at h1
      | ok url =>
        rw [hdi] at h1
        simp only [] at h1
        cases hai : c.analyzeImage url with
        | error e => rw [hai] at h1; simp at h1
        | ok text =>
          rw [hai] at h1
          simp only [] at h1
          cases hpa : c.parseAnalysis text with
          | error e => rw [hpa] at h1; simp at h1
          | ok parsed =>
            rw [hpa] at h1
            simp only [cacheSet, Prod.mk.injEq, Except.ok.injEq] at h1
            rcases h1 with ⟨hr, henv⟩
            refine ⟨?_, ?_, ?_, ?_⟩
            · rw [← henv]
            · rw [← henv]
            · rw [← henv]
            · have hget : cacheGet ("analysis_" ++ fileId) env1 = some (.vAnalysis r) := by
                rw [← henv, ← hr]
                simp [cacheGet, cacheSet, assocGet_set_self]
              unfold analyzeDocument
              simp only [hget]

/-- C6 witness: the concrete first call on the empty environment, then
the second call returning the cached result with unchanged counters. -/
theorem analyze_second_call_cached_witness :
    envW1.fetchCount = envEmpty.fetchCount + 1 ∧
    analyzeDocument collabW "f" false envW1 = (.ok rW, envW1) :=
  ⟨(analyze_second_call_cached collabW "f" envEmpty envW1 rW rfl (by decide)).1,
   (analyze_second_call_cached collabW "f" envEmpty envW1 rW rfl (by decide)).2.2.2⟩

/-- A date-typed entity whose non-empty name fails to parse always makes
`validateEntity` report at least the date-format error. -/
theorem validateEntity_date_unparseable (e : EntityIn) (htype : e.type = "date")
    (hne : e.name.isEmpty = false) (hparse : jsParseDate e.name = none) :
    (validateEntity e).errors ≠ [] := by
  unfold validateEntity
  simp only [htype, hne, hparse]
  simp [List.append_eq_nil]

/-- If some listed entity is individually invalid, the indexed forEach
error list is non-empty. -/
theorem perEntityErrors_ne_nil (e : EntityIn) (hv : (validateEntity e).errors ≠ []) :
    ∀ (es : List EntityIn), e ∈ es → ∀ (i : Nat), perEntityErrors i es ≠ [] := by
  intro es
  induction es with
  | nil => intro he; cases he
  | cons hd tl ih =>
    intro he i hnil
    unfold perEntityErrors at hnil
    rw [List.append_eq_nil] at hnil
    rcases List.mem_cons.mp he with rfl | he2
    · exact hv (List.map_eq_nil_iff.mp hnil.1)
    · exact ih he2 (i + 1) hnil.2

/-- If some listed entity is individually invalid, `validateEntities`
reports a non-empty error list. -/
theorem validateEntities_invalid (es : List EntityIn) (e : EntityIn)
    (he : e ∈ es) (hv : (validateEntity e).errors ≠ []) :
    (validateEntities es).errors ≠ [] := by
  unfold validateEntities
  have hlen : ¬es.length = 0 := by
    cases es
    · cases he
    · simp
  simp only [hlen, if_false]
  intro hnil
  rw [List.append_eq_nil] at hnil
  exact perEntityErrors_ne_nil e hv es he 0 hnil.2

/-- A non-empty entity error list makes the whole document validation
invalid. -/
theorem validateDocumentForSave_invalid_of_entities (d : CreateDocumentRequest)
    (hents : (validateEntities d.entities).errors ≠ []) :
    (validateDocumentForSave d).isValid = false := by
  unfold validateDocumentForSave
  simp only []
  rw [List.isEmpty_eq_false_iff_exists_mem]
  rcases List.exists_mem_of_ne_nil _ hents with ⟨x, hx⟩
  exact ⟨x, by simp [List.mem_append]; tauto⟩

/-- The three concrete operations as rewrite equations. -/
theorem defaultTxOps_find (name ty : String) (db : DB) :
    defaultTxOps.findByNameAndType name ty db =
      .ok (findEntityByNameAndType name ty db, db) := rfl

theorem defaultTxOps_createEntity (e : EntityIn) (db : DB) :
    defaultTxOps.createEntity e db =
      .ok (baseCreateEntityRow e db, baseCreateEntityDB e db) := rfl

theorem defaultTxOps_createDoc (core : DocCore) (ids : List Nat) (db : DB) :
    defaultTxOps.createWithEntities core ids db =
      .ok (createdDocRow core ids db, createdDocDB core ids db) := rfl

/-- Phase 1 of the save-transaction entity resolution against the
concrete store: every lookup runs on the initial table and the store is
unchanged. -/
theorem runFinds_defaultTxOps (es : List EntityIn) (db : DB) :
    runFinds defaultTxOps es db =
      .ok (es.map (fun e => (e, findEntityByNameAndType e.name e.type db)), db) := by
  induction es with
  | nil => rfl
  | cons hd tl ih =>
    unfold runFinds
    rw [defaultTxOps_find]
    simp only []
    rw [ih]
    rfl

/-- Phase 2 against the concrete store only appends rows whose name, type
and date are copied verbatim from some pending payload entity. -/
theorem runCreates_defaultTxOps_rows (pairs : List (EntityIn × Option EntityRow))
    (db : DB) (rows : List EntityRow) (db' : DB)
    (h : runCreates defaultTxOps pairs db = .ok (rows, db')) :
    ∀ row ∈ db'.entities, row ∈ db.entities ∨
      ∃ p, p ∈ pairs ∧ row.name = p.1.name ∧ row.type = p.1.type ∧ row.date = p.1.date := by
  induction pairs generalizing db rows db' with
  | nil =>
    unfold runCreates at h
    cases h
    intro row hrow
    exact Or.inl hrow
  | cons hd tl ih =>
    rcases hd with ⟨e, found⟩
    cases found with
    | some r0 =>
      unfold runCreates at h
      cases hrec : runCreates defaultTxOps tl db with
      | error err => rw [hrec] at h; cases h
      | ok p =>
        rcases p with ⟨rows', db''⟩
        rw [hrec] at h
        cases h
        intro row hrow
        rcases ih db rows' db' hrec row hrow with hl | ⟨p, hp, hinfo⟩
        · exact Or.inl hl
        · exact Or.inr ⟨p, List.mem_cons_of_mem _ hp, hinfo⟩
    | none =>
      unfold runCreates at h
      rw [defaultTxOps_createEntity] at h
      simp only [] at h
      cases hrec : runCreates defaultTxOps tl (baseCreateEntityDB e db) with
      | error err => rw [hrec] at h; cases h
      | ok p =>
        rcases p with ⟨rows', db''⟩
        rw [hrec] at h
        cases h
        intro row hrow
        rcases ih _ rows' db' hrec row hrow with hl | ⟨p, hp, hinfo⟩
        · simp only [baseCreateEntityDB] at hl
          simp only [List.mem_append, List.mem_singleton] at hl
          rcases hl with hl | hl
          · exact Or.inl hl
          · subst hl
            exact Or.inr ⟨(e, none), List.mem_cons_self _ _, rfl, rfl, rfl⟩
        · exact Or.inr ⟨p, List.mem_cons_of_mem _ hp, hinfo⟩

/-- C4 corrected.  (a) A date entity with non-empty text that does not
parse as a date fails payload validation, so the save errors out before
the transaction and the store is unchanged — malformed date text DOES
block document save.  (b) On any successful save, every entity row now
in the store was either there before or carries name, type and date
verbatim from some payload entity: the save path never derives a
normalized date value from the entity's name (that logic lives only in
`createFromEntity`, which `saveDocument` does not call). -/
theorem save_date_entities_amended :
    (∀ (d : CreateDocumentRequest) (db : DB) (e : EntityIn),
      e ∈ d.entities → e.type = "date" → e.name.isEmpty = false →
      jsParseDate e.name = none →
      ∃ msg, saveDocument d db = (.error msg, db)) ∧
    (∀ (d : CreateDocumentRequest) (db : DB) (doc : DocumentRow) (db' : DB),
      saveDocument d db = (.ok doc, db') →
      ∀ row ∈ db'.entities, row ∈ db.entities ∨
        ∃ e, e ∈ d.entities ∧ row.name = e.name ∧ row.type = e.type ∧ row.date = e.date) := by
  constructor
  · intro d db e he htype hne hparse
    have hval : (validateDocumentForSave d).isValid = false :=
      validateDocumentForSave_invalid_of_entities d
        (validateEntities_invalid d.entities e he
          (validateEntity_date_unparseable e htype hne hparse))
    unfold saveDocument saveDocumentWith
    simp [hval]
  · intro d db doc db' h
    unfold saveDocument saveDocumentWith at h
    by_cases hval : (validateDocumentForSave d).isValid
    · simp only [hval, if_true] at h
      unfold transaction at h
      cases hbody : saveTxBody defaultTxOps d db with
      | error err => rw [hbody] at h; simp at h
      | ok p =>
        rcases p with ⟨doc0, dbT⟩
        rw [hbody] at h
        simp only [Prod.mk.injEq, Except.ok.injEq] at h
        rcases h with ⟨hdoc, hdb⟩
        unfold saveTxBody at hbody
        rw [runFinds_defaultTxOps] at hbody
        simp only [] at hbody
        cases hcre : runCreates defaultTxOps
            (d.entities.map (fun e => (e, findEntityByNameAndType e.name e.type db))) db with
        | error err => rw [hcre] at hbody; cases hbody
        | ok q =>
          rcases q with ⟨rows, db2⟩
          rw [hcre] at hbody
          simp only [defaultTxOps_createDoc, Except.ok.injEq, Prod.mk.injEq] at hbody
          rcases hbody with ⟨-, hdbT⟩
          intro row hrow
          have hrow2 : row ∈ db2.entities := by
            rw [← hdb, ← hdbT] at hrow
            simp only [createdDocDB] at hrow
            exact hrow
          rcases runCreates_defaultTxOps_rows _ db rows db2 hcre row hrow2 with hl | ⟨p, hp, hinfo⟩
          · exact Or.inl hl
          · rcases List.mem_map.mp hp with ⟨e, hemem, hpe⟩
            exact Or.inr ⟨e, hemem, by rw [← hpe] at hinfo; exact hinfo⟩
    · simp only [hval] at h
      simp at h

/-- C4 witness: the concrete duplicate-person payload saves successfully
and both created rows copy the payload's (absent) date verbatim. -/
theorem save_date_entities_amended_witness :
    (⟨0, "John Smith", none, "person"⟩ : EntityRow) ∈ emptyDB.entities ∨
    ∃ e, e ∈ reqJS.entities ∧ (("John Smith" : String) = e.name) ∧
      (("person" : String) = e.type) ∧ ((none : Option String) = e.date) :=
  (save_date_entities_amended).2 reqJS emptyDB
    ⟨⟨"Letter from the Front", "l1.pdf", "...", none, "letter"⟩, 2, [0, 1]⟩
    (saveDocument reqJS emptyDB).2 (by decide)
    ⟨0, "John Smith", none, "person"⟩ (by decide)

end WWII
